import Mathlib

/-!
Verification of the VideoResizer frontend against its specification.

Numbers handled by the JavaScript code (times in seconds, aspect ratios,
slider values, timeouts in milliseconds) are modelled as rationals; byte
sizes and retry counters as naturals.  React component state is modelled
as an explicit state record, and each event handler as a pure function
from the pre-event state (the render closure the handler actually reads)
to the updated state and/or the request object it emits.
-/

namespace VideoTimeline

/-- State of the `VideoTimeline` component relevant to the time-range
handlers: the `startTime`/`endTime` props and the asset duration. -/
structure TimelineState where
  startTime : ℚ
  endTime : ℚ
  duration : ℚ
deriving DecidableEq

/-- The TimeRange invariant of the spec: `0 ≤ start < end ≤ duration`. -/
def timeRangeInvariant (s e d : ℚ) : Prop := 0 ≤ s ∧ s < e ∧ e ≤ d

instance (s e d : ℚ) : Decidable (timeRangeInvariant s e d) := by
  unfold timeRangeInvariant; infer_instance

/-- Handler `handleRangeChange` (VideoTimeline.tsx:166-175): forwards the two-thumb
slider pair to `onTimeChange` unchanged, with no clamping. -/
def handleRangeChange (_ : TimelineState) (newStart newEnd : ℚ) : ℚ × ℚ :=
  (newStart, newEnd)

/-- Handler `handleStartTimeChange` (VideoTimeline.tsx:178-185): the parsed input is
clamped to `max(0, min(value, endTime - 0.1))` and paired with the
unchanged end time. -/
def handleStartTimeChange (st : TimelineState) (value : ℚ) : ℚ × ℚ :=
  (max 0 (min value (st.endTime - 1/10)), st.endTime)

/-- Handler `handleEndTimeChange` (VideoTimeline.tsx:187-191): the parsed input is
clamped to `min(duration, max(value, startTime + 0.1))` and paired with the
unchanged start time. -/
def handleEndTimeChange (st : TimelineState) (value : ℚ) : ℚ × ℚ :=
  (st.startTime, min st.duration (max value (st.startTime + 1/10)))

end VideoTimeline

namespace VideoTimeline

/-- Claim C1 as stated is false: `handleRangeChange` does not clamp, so from
the valid prior state `(start, end, duration) = (0, 1, 1)` (with duration
`1 ≥ 0.2`) the slider input pair `(1/2, 1/2)` is forwarded verbatim to
`onTimeChange` and violates `start < end`. -/
theorem C1_counterexample :
    timeRangeInvariant 0 1 1 ∧ (1/5 : ℚ) ≤ 1 ∧
    handleRangeChange ⟨0, 1, 1⟩ (1/2) (1/2) = (1/2, 1/2) ∧
    ¬ timeRangeInvariant (1/2) (1/2) 1 := by
  refine ⟨⟨by norm_num, by norm_num, by norm_num⟩, by norm_num, rfl, ?_⟩
  intro h
  exact absurd h.2.1 (by norm_num)

/-- Claim C1, amended: the manual handlers `handleStartTimeChange` and
`handleEndTimeChange` preserve the TimeRange invariant for every valid
prior state and every numeric input, while `handleRangeChange` forwards
the slider pair unchanged, so it preserves the invariant only when the
input pair already satisfies it. -/
theorem C1_manual_handlers_preserve_invariant
    (st : TimelineState) (v : ℚ)
    (h : timeRangeInvariant st.startTime st.endTime st.duration) :
    (timeRangeInvariant (handleStartTimeChange st v).1
      (handleStartTimeChange st v).2 st.duration) ∧
    (timeRangeInvariant (handleEndTimeChange st v).1
      (handleEndTimeChange st v).2 st.duration) ∧
    (∀ a b : ℚ, handleRangeChange st a b = (a, b)) := by
  obtain ⟨h0, hlt, hle⟩ := h
  have hepos : 0 < st.endTime := lt_of_le_of_lt h0 hlt
  simp only [handleStartTimeChange, handleEndTimeChange, handleRangeChange,
    timeRangeInvariant]
  refine ⟨⟨le_max_left _ _, ?_, hle⟩, ⟨h0, ?_, min_le_left _ _⟩, fun a b => trivial⟩
  · refine max_lt hepos (lt_of_le_of_lt (min_le_right _ _) ?_)
    linarith
  · refine lt_min (lt_of_lt_of_le hlt hle) ?_
    have := le_max_right v (st.startTime + 1/10)
    linarith

/-- Witness: the amended C1 theorem applied at the concrete valid state
`(0, 1, 1)` with input `5`. -/
theorem C1_manual_handlers_preserve_invariant_witness :
    (timeRangeInvariant (handleStartTimeChange ⟨0, 1, 1⟩ 5).1
      (handleStartTimeChange ⟨0, 1, 1⟩ 5).2 (1 : ℚ)) ∧
    (timeRangeInvariant (handleEndTimeChange ⟨0, 1, 1⟩ 5).1
      (handleEndTimeChange ⟨0, 1, 1⟩ 5).2 (1 : ℚ)) ∧
    (∀ a b : ℚ, handleRangeChange ⟨0, 1, 1⟩ a b = (a, b)) :=
  C1_manual_handlers_preserve_invariant ⟨0, 1, 1⟩ 5
    ⟨by norm_num, by norm_num, by norm_num⟩

end VideoTimeline

namespace ProcessingOptions

/-- Values of `resize_method` (ProcessingOptions.tsx / types.ts). -/
inductive ResizeMethod where
  | crop
  | pad
  | stretch
deriving DecidableEq

/-- Values of `quality_preset` (types.ts). -/
inductive Quality where
  | lossless
  | high
  | medium
  | low
deriving DecidableEq

/-- Values of `watermark_position` (types.ts). -/
inductive WatermarkPosition where
  | topLeft
  | topRight
  | bottomLeft
  | bottomRight
  | center
deriving DecidableEq

/-- One entry of `ASPECT_RATIO_PRESETS` (ProcessingOptions.tsx:1534-1542). -/
structure RatioPreset where
  label : String
  width : ℚ
  height : ℚ
deriving DecidableEq

/-- The preset table `ASPECT_RATIO_PRESETS` (ProcessingOptions.tsx:1534-1542). -/
def ASPECT_RATIO_PRESETS : List RatioPreset :=
  [⟨"9:16 (TikTok/Stories)", 9, 16⟩,
   ⟨"16:9 (YouTube)", 16, 9⟩,
   ⟨"1:1 (Instagram Square)", 1, 1⟩,
   ⟨"4:3 (Traditional TV)", 4, 3⟩,
   ⟨"4:5 (Instagram Portrait)", 4, 5⟩,
   ⟨"21:9 (Cinematic)", 21, 9⟩,
   ⟨"Custom", 0, 0⟩]

/-- The React state of the `ProcessingOptions` component
(ProcessingOptions.tsx:1585-1605).  Files are abstracted to opaque
numeric identifiers; the CTA video to its file id. -/
structure OptionsState where
  enableTimeCrop : Bool
  enableRatioChange : Bool
  enableCta : Bool
  startTime : ℚ
  endTime : ℚ
  selectedRatioPreset : ℕ
  customWidth : ℚ
  customHeight : ℚ
  resizeMethod : ResizeMethod
  padColor : ℕ × ℕ × ℕ
  blurBackground : Bool
  blurStrength : ℚ
  gradientBlend : ℚ
  ctaVideo : Option String
  qualityPreset : Quality
  watermarkFile : Option ℕ
  watermarkPosition : WatermarkPosition
deriving DecidableEq

/-- The `useState` initial values (ProcessingOptions.tsx:1585-1605):
time crop/ratio change/CTA off, times 0, preset 0 (9:16), custom 16×9,
method crop, pad color black, blur off with strength 25 and gradient
blend 0.3, quality high, watermark bottom-right. -/
def initialState : OptionsState :=
  ⟨false, false, false, 0, 0, 0, 16, 9, ResizeMethod.crop, (0, 0, 0),
   false, 25, 3/10, none, Quality.high, none, WatermarkPosition.bottomRight⟩

/-- The currently selected target ratio, as computed identically inside
`updateOptions` (ProcessingOptions.tsx:1609-1612) and
`createPreviewRequest` (ProcessingOptions.tsx:1721-1724): the Custom
preset uses the custom width/height, any other preset its own pair. -/
def targetRatioOf (s : OptionsState) : ℚ × ℚ :=
  let currentPreset := ASPECT_RATIO_PRESETS.getD s.selectedRatioPreset ⟨"", 0, 0⟩
  if currentPreset.label = "Custom" then (s.customWidth, s.customHeight)
  else (currentPreset.width, currentPreset.height)

/-- The options object passed to `onChange` by `updateOptions`
(ProcessingOptions.tsx:1614-1631). -/
structure EmittedRequest where
  enable_time_crop : Bool
  enable_ratio_change : Bool
  enable_cta : Bool
  start_time : ℚ
  end_time : ℚ
  target_ratio : Option (ℚ × ℚ)
  resize_method : ResizeMethod
  pad_color : ℕ × ℕ × ℕ
  blur_background : Bool
  blur_strength : ℚ
  gradient_blend : ℚ
  cta_video_id : Option String
  quality_preset : Quality
  watermark_file : Option ℕ
  watermark_position : WatermarkPosition
deriving DecidableEq

/-- Function `updateOptions` with an empty `updates` object
(ProcessingOptions.tsx:1607-1632): every field is read from the current
render's state closure; `target_ratio` is sent only when
`enableRatioChange` is set. -/
def updateOptionsBase (s : OptionsState) : EmittedRequest :=
  ⟨s.enableTimeCrop, s.enableRatioChange, s.enableCta, s.startTime,
   s.endTime, if s.enableRatioChange then some (targetRatioOf s) else none,
   s.resizeMethod, s.padColor, s.blurBackground, s.blurStrength,
   s.gradientBlend, s.ctaVideo, s.qualityPreset, s.watermarkFile,
   s.watermarkPosition⟩

/-- The `PreviewRequest` object built by `createPreviewRequest`
(ProcessingOptions.tsx:1720-1737). -/
structure PreviewRequest where
  main_video_id : String
  target_ratio : ℚ × ℚ
  resize_method : ResizeMethod
  pad_color : ℕ × ℕ × ℕ
  blur_background : Bool
  blur_strength : ℚ
  gradient_blend : ℚ
  enable_time_crop : Bool
  start_time : ℚ
deriving DecidableEq

/-- Function `createPreviewRequest` (ProcessingOptions.tsx:1720-1737). -/
def createPreviewRequest (s : OptionsState) (mainVideoId : Option String) :
    PreviewRequest :=
  ⟨mainVideoId.getD (""), targetRatioOf s, s.resizeMethod, s.padColor,
   s.blurBackground, s.blurStrength, s.gradientBlend, s.enableTimeCrop,
   s.startTime⟩

/-- The user interactions of the `ProcessingOptions` component, one per
event handler or inline callback that touches component state
(ProcessingOptions.tsx:1634-1717, 1955, 2019-2033, 2141-2142, 2180-2181,
2207-2208, 2311-2312, 2405-2406, 2463, 2529-2530). -/
inductive Event where
  | timeChange (newStart newEnd : ℚ)
  | timeCropToggle (checked : Bool) (mainDuration : Option ℚ)
  | ratioToggle (checked : Bool)
  | ratioPreset (index : ℕ)
  | customWidthInput (v : ℚ)
  | customHeightInput (v : ℚ)
  | resizeMethodChange (m : ResizeMethod)
  | ctaToggle (checked : Bool)
  | ctaUpload (fileId : String)
  | ctaRemove
  | qualityChange (q : Quality)
  | qualityClick (q : Quality)
  | watermarkChange (f : ℕ)
  | watermarkRemove
  | watermarkPositionChange (p : WatermarkPosition)
  | blurToggle (b : Bool)
  | blurStrengthSlider (v : ℚ)
  | gradientBlendSlider (v : ℚ)
  | padColorPick (c : ℕ × ℕ × ℕ)

/-- The component state after React applies the `set*` calls made by the
handler of each event.  In particular `handleResizeMethodChange`
(ProcessingOptions.tsx:1666-1673) resets `blurBackground` whenever the
new method is not `pad`. -/
def step (s : OptionsState) : Event → OptionsState
  | .timeChange ns ne => { s with startTime := ns, endTime := ne }
  | .timeCropToggle c d =>
    match c, d with
    | true, some dur => { s with enableTimeCrop := true, endTime := dur }
    | c, _ => { s with enableTimeCrop := c }
  | .ratioToggle c => { s with enableRatioChange := c }
  | .ratioPreset i => { s with selectedRatioPreset := i }
  | .customWidthInput v => { s with customWidth := v }
  | .customHeightInput v => { s with customHeight := v }
  | .resizeMethodChange m =>
    { s with resizeMethod := m,
             blurBackground :=
               if m = ResizeMethod.pad then s.blurBackground else false }
  | .ctaToggle c => { s with enableCta := c }
  | .ctaUpload fid => { s with ctaVideo := some fid }
  | .ctaRemove => { s with ctaVideo := none }
  | .qualityChange q => { s with qualityPreset := q }
  | .qualityClick q => { s with qualityPreset := q }
  | .watermarkChange f => { s with watermarkFile := some f }
  | .watermarkRemove => { s with watermarkFile := none }
  | .watermarkPositionChange p => { s with watermarkPosition := p }
  | .blurToggle b => { s with blurBackground := b }
  | .blurStrengthSlider v => { s with blurStrength := v }
  | .gradientBlendSlider v => { s with gradientBlend := v }
  | .padColorPick c => { s with padColor := c }

/-- The request each handler emits through `updateOptions`: the base
object is built from the handler's render closure (the PRE-event state,
since React `set*` calls do not change the closed-over variables), with
only the handler's explicit `updates` fields overridden.  `none` for the
quality-card click (ProcessingOptions.tsx:2463), which calls no
`updateOptions`. -/
def emit (s : OptionsState) : Event → Option EmittedRequest
  | .timeChange ns ne =>
    some { updateOptionsBase s with start_time := ns, end_time := ne }
  | .timeCropToggle c d =>
    match c, d with
    | true, some dur =>
      some { updateOptionsBase s with enable_time_crop := true, end_time := dur }
    | c, _ => some { updateOptionsBase s with enable_time_crop := c }
  | .ratioToggle c => some { updateOptionsBase s with enable_ratio_change := c }
  | .ratioPreset _ => some (updateOptionsBase s)
  | .customWidthInput _ => some (updateOptionsBase s)
  | .customHeightInput _ => some (updateOptionsBase s)
  | .resizeMethodChange m => some { updateOptionsBase s with resize_method := m }
  | .ctaToggle c => some { updateOptionsBase s with enable_cta := c }
  | .ctaUpload fid => some { updateOptionsBase s with cta_video_id := some fid }
  | .ctaRemove => some { updateOptionsBase s with cta_video_id := none }
  | .qualityChange q => some { updateOptionsBase s with quality_preset := q }
  | .qualityClick _ => none
  | .watermarkChange f => some { updateOptionsBase s with watermark_file := some f }
  | .watermarkRemove => some { updateOptionsBase s with watermark_file := none }
  | .watermarkPositionChange p =>
    some { updateOptionsBase s with watermark_position := p }
  | .blurToggle b => some { updateOptionsBase s with blur_background := b }
  | .blurStrengthSlider v => some { updateOptionsBase s with blur_strength := v }
  | .gradientBlendSlider v => some { updateOptionsBase s with gradient_blend := v }
  | .padColorPick c => some { updateOptionsBase s with pad_color := c }

/-- Input constraints guaranteed by the MUI controls: the blur-strength
slider (ProcessingOptions.tsx:2183-2185) emits integers from 1 to 50
(min 1, max 50, step 1); the gradient-blend slider
(ProcessingOptions.tsx:2210-2212) emits values between 0 and 1. -/
def validEvent : Event → Prop
  | .blurStrengthSlider v => (∃ k : ℕ, v = 1 + (k : ℚ)) ∧ v ≤ 50
  | .gradientBlendSlider v => 0 ≤ v ∧ v ≤ 1
  | _ => True

/-- States the component can be in: the initial state, closed under
valid events. -/
inductive Reachable : OptionsState → Prop
  | init : Reachable initialState
  | next {s : OptionsState} {e : Event} :
      Reachable s → validEvent e → Reachable (step s e)

/-- Bounds maintained on the blur fields of the state. -/
def blurInvariant (s : OptionsState) : Prop :=
  (∃ k : ℕ, s.blurStrength = 1 + (k : ℚ)) ∧ s.blurStrength ≤ 50 ∧
    0 ≤ s.gradientBlend ∧ s.gradientBlend ≤ 1

theorem reachable_blurInvariant {s : OptionsState} (h : Reachable s) :
    blurInvariant s := by
  induction h with
  | init =>
    refine ⟨⟨24, ?_⟩, ?_, ?_, ?_⟩ <;> simp [initialState] <;> norm_num
  | next hs hv ih =>
    rename_i s e
    cases e with
    | timeCropToggle c d =>
      obtain ⟨h1, h2, h3, h4⟩ := ih
      cases c <;> cases d <;> exact ⟨h1, h2, h3, h4⟩
    | blurStrengthSlider v => exact ⟨hv.1, hv.2, ih.2.2⟩
    | gradientBlendSlider v => exact ⟨ih.1, ih.2.1, hv⟩
    | _ => exact ih

/-- A reachable state with the pad method selected and the blurred
background switched on: select Letterbox, then toggle the blur switch. -/
def padBlurState : OptionsState :=
  step (step initialState (Event.resizeMethodChange ResizeMethod.pad))
    (Event.blurToggle true)

/-- Claim C2 identifies a real bug: from the reachable state with
`resizeMethod = pad` and `blurBackground = true`, selecting `crop` emits a
request with `resize_method = crop` but `blur_background` still `true`,
because `updateOptions` reads the render closure in which
`setBlurBackground(false)` has not yet taken effect — even though the
very next state does have `blurBackground = false`, as the code's own
"Reset blur background when not using pad method" comment intends. -/
theorem C2_stale_blur_flag_bug :
    Reachable padBlurState ∧
    padBlurState.resizeMethod = ResizeMethod.pad ∧
    padBlurState.blurBackground = true ∧
    emit padBlurState (Event.resizeMethodChange ResizeMethod.crop) =
      some { updateOptionsBase padBlurState with
               resize_method := ResizeMethod.crop } ∧
    ({ updateOptionsBase padBlurState with
         resize_method := ResizeMethod.crop } : EmittedRequest).resize_method
      = ResizeMethod.crop ∧
    ({ updateOptionsBase padBlurState with
         resize_method := ResizeMethod.crop } : EmittedRequest).blur_background
      = true ∧
    (step padBlurState (Event.resizeMethodChange ResizeMethod.crop)).blurBackground
      = false :=
  ⟨Reachable.next (Reachable.next Reachable.init trivial) trivial,
   rfl, rfl, rfl, rfl, rfl, rfl⟩

/-- Claim C4 as stated is false: in the initial UI state (ratio change
disabled) the process request built by `updateOptions` carries no
`target_ratio` at all, while `createPreviewRequest` still carries the
selected 9:16 preset. -/
theorem C4_counterexample :
    (createPreviewRequest initialState (some ("main"))).target_ratio = (9, 16) ∧
    (updateOptionsBase initialState).target_ratio = none ∧
    (updateOptionsBase initialState).target_ratio ≠
      some (createPreviewRequest initialState (some ("main"))).target_ratio :=
  ⟨rfl, rfl, fun h => Option.noConfusion h⟩

/-- Claim C4, amended: whenever ratio change is enabled, the preview
request built by `createPreviewRequest` carries exactly the same
geometry-relevant values as the process request built by
`updateOptions` — target ratio (including the Custom-preset case, since
both use the same preset computation), resize method, pad color, blur
background, blur strength, gradient blend and start time; when ratio
change is disabled the process request omits `target_ratio` while the
preview still carries the selected ratio. -/
theorem C4_geometry_agreement_when_ratio_enabled
    (s : OptionsState) (mainVideoId : Option String)
    (h : s.enableRatioChange = true) :
    (updateOptionsBase s).target_ratio =
      some (createPreviewRequest s mainVideoId).target_ratio ∧
    (updateOptionsBase s).resize_method =
      (createPreviewRequest s mainVideoId).resize_method ∧
    (updateOptionsBase s).pad_color =
      (createPreviewRequest s mainVideoId).pad_color ∧
    (updateOptionsBase s).blur_background =
      (createPreviewRequest s mainVideoId).blur_background ∧
    (updateOptionsBase s).blur_strength =
      (createPreviewRequest s mainVideoId).blur_strength ∧
    (updateOptionsBase s).gradient_blend =
      (createPreviewRequest s mainVideoId).gradient_blend ∧
    (updateOptionsBase s).start_time =
      (createPreviewRequest s mainVideoId).start_time := by
  refine ⟨?_, rfl, rfl, rfl, rfl, rfl, rfl⟩
  simp [updateOptionsBase, createPreviewRequest, h]

/-- Witness: the amended C4 theorem at the state reached by enabling
ratio change from the initial state. -/
theorem C4_geometry_agreement_witness :
    (updateOptionsBase (step initialState (Event.ratioToggle true))).target_ratio
      = some (createPreviewRequest (step initialState (Event.ratioToggle true))
          (some ("main"))).target_ratio ∧
    (updateOptionsBase (step initialState (Event.ratioToggle true))).resize_method
      = (createPreviewRequest (step initialState (Event.ratioToggle true))
          (some ("main"))).resize_method ∧
    (updateOptionsBase (step initialState (Event.ratioToggle true))).pad_color
      = (createPreviewRequest (step initialState (Event.ratioToggle true))
          (some ("main"))).pad_color ∧
    (updateOptionsBase (step initialState (Event.ratioToggle true))).blur_background
      = (createPreviewRequest (step initialState (Event.ratioToggle true))
          (some ("main"))).blur_background ∧
    (updateOptionsBase (step initialState (Event.ratioToggle true))).blur_strength
      = (createPreviewRequest (step initialState (Event.ratioToggle true))
          (some ("main"))).blur_strength ∧
    (updateOptionsBase (step initialState (Event.ratioToggle true))).gradient_blend
      = (createPreviewRequest (step initialState (Event.ratioToggle true))
          (some ("main"))).gradient_blend ∧
    (updateOptionsBase (step initialState (Event.ratioToggle true))).start_time
      = (createPreviewRequest (step initialState (Event.ratioToggle true))
          (some ("main"))).start_time :=
  C4_geometry_agreement_when_ratio_enabled
    (step initialState (Event.ratioToggle true)) (some ("main")) rfl

/-- Claim C5: every request the options panel emits has `blur_strength`
an integer in `[1, 50]` and `gradient_blend` in `[0, 1]` — the initial
state `(25, 0.3)` satisfies the bounds and only the two bounded sliders
change these fields, so the bounds hold for every request emitted from
any reachable state by any valid event. -/
theorem C5_emitted_blur_bounds
    (s : OptionsState) (e : Event) (r : EmittedRequest)
    (hs : Reachable s) (he : validEvent e) (hr : emit s e = some r) :
    1 ≤ r.blur_strength ∧ r.blur_strength ≤ 50 ∧
    (∃ k : ℤ, r.blur_strength = (k : ℚ)) ∧
    0 ≤ r.gradient_blend ∧ r.gradient_blend ≤ 1 := by
  obtain ⟨⟨k, hk⟩, h50, hg0, hg1⟩ := reachable_blurInvariant hs
  have h1 : 1 ≤ s.blurStrength := by
    rw [hk]
    have : (0 : ℚ) ≤ (k : ℚ) := by positivity
    linarith
  have hint : ∃ m : ℤ, s.blurStrength = (m : ℚ) :=
    ⟨1 + k, by rw [hk]; push_cast; ring⟩
  cases e <;>
    first
      | (simp only [emit] at hr
         rw [Option.some_inj] at hr
         subst hr
         exact ⟨h1, h50, hint, hg0, hg1⟩)
      | skip
  case timeCropToggle c d =>
    cases c <;> cases d <;>
      (simp only [emit] at hr
       rw [Option.some_inj] at hr
       subst hr
       exact ⟨h1, h50, hint, hg0, hg1⟩)
  case qualityClick q =>
    simp only [emit] at hr
    exact Option.noConfusion hr
  case blurStrengthSlider v =>
    simp only [emit] at hr
    rw [Option.some_inj] at hr
    subst hr
    dsimp only
    obtain ⟨⟨m, hm⟩, hv50⟩ := he
    have hm0 : (0 : ℚ) ≤ (m : ℚ) := by positivity
    refine ⟨by rw [hm]; linarith, hv50, ⟨1 + m, by rw [hm]; push_cast; ring⟩,
      hg0, hg1⟩
  case gradientBlendSlider v =>
    simp only [emit] at hr
    rw [Option.some_inj] at hr
    subst hr
    exact ⟨h1, h50, hint, he.1, he.2⟩

/-- Witness: the C5 theorem at the initial state with the blur toggle
event, whose emitted request carries `blur_strength = 25` and
`gradient_blend = 0.3`. -/
theorem C5_emitted_blur_bounds_witness :
    1 ≤ ({ updateOptionsBase initialState with
             blur_background := true } : EmittedRequest).blur_strength ∧
    ({ updateOptionsBase initialState with
         blur_background := true } : EmittedRequest).blur_strength ≤ 50 ∧
    (∃ k : ℤ, ({ updateOptionsBase initialState with
         blur_background := true } : EmittedRequest).blur_strength = (k : ℚ)) ∧
    0 ≤ ({ updateOptionsBase initialState with
             blur_background := true } : EmittedRequest).gradient_blend ∧
    ({ updateOptionsBase initialState with
         blur_background := true } : EmittedRequest).gradient_blend ≤ 1 :=
  C5_emitted_blur_bounds initialState (Event.blurToggle true)
    { updateOptionsBase initialState with blur_background := true }
    Reachable.init trivial rfl

/-- The `ratiosMatch` predicate of the blur-background aspect-ratio check
(ProcessingOptions.tsx:2244-2251): the source ratio `currentW/currentH`
and the selected target ratio are compared with a STRICT
`Math.abs(currentRatio - targetRatio) < 0.01`. -/
def ratiosMatch (currentW currentH targetW targetH : ℚ) : Prop :=
  |currentW / currentH - targetW / targetH| < 1/100

instance (a b c d : ℚ) : Decidable (ratiosMatch a b c d) := by
  unfold ratiosMatch; infer_instance

/-- Modelled from the spec (§8): the blurred-pad no-op condition
"`|sourceRatio - targetRatio| ≤ ε`" with `ε = 1e-2`. -/
def specRatioNoOp (currentW currentH targetW targetH : ℚ) : Prop :=
  |currentW / currentH - targetW / targetH| ≤ 1/100

instance (a b c d : ℚ) : Decidable (specRatioNoOp a b c d) := by
  unfold specRatioNoOp; infer_instance

/-- Claim C3 as stated is false at the boundary: a 101×100 source with
target ratio 1:1 has `|currentRatio - targetRatio| = 0.01` exactly, so
the code's strict `< 0.01` check treats the blur as active while the
spec's `≤ ε` condition makes it a no-op. -/
theorem C3_counterexample :
    ¬ ratiosMatch 101 100 1 1 ∧ specRatioNoOp 101 100 1 1 ∧
    ¬ (ratiosMatch 101 100 1 1 ↔ specRatioNoOp 101 100 1 1) := by
  have habs : |(101 : ℚ) / 100 - 1 / 1| = 1/100 := by
    rw [abs_of_nonneg] <;> norm_num
  unfold ratiosMatch specRatioNoOp
  rw [habs]
  norm_num

/-- Claim C3, amended: the code's strict `< 0.01` predicate agrees with
the spec's `≤ 1e-2` no-op condition at every input whose ratio
difference is not exactly `0.01`; only at that boundary do they
disagree. -/
theorem C3_ratiosMatch_agrees_off_boundary
    (currentW currentH targetW targetH : ℚ)
    (h : |currentW / currentH - targetW / targetH| ≠ 1/100) :
    (ratiosMatch currentW currentH targetW targetH ↔
      specRatioNoOp currentW currentH targetW targetH) := by
  unfold ratiosMatch specRatioNoOp
  exact ⟨le_of_lt, fun hle => lt_of_le_of_ne hle h⟩

/-- Witness: the amended C3 theorem at a 1920×1080 source with target
16:9, where the ratio difference is 0. -/
theorem C3_ratiosMatch_agrees_off_boundary_witness :
    (ratiosMatch 1920 1080 16 9 ↔ specRatioNoOp 1920 1080 16 9) :=
  C3_ratiosMatch_agrees_off_boundary 1920 1080 16 9
    (by norm_num)

end ProcessingOptions

namespace GeometryPlanner

/-- Modelled from the spec (§4.2): all emitted width/height values are
rounded to the nearest even integer. -/
def evenRound (q : ℚ) : ℤ :=
  2 * round (q / 2)

/-- Modelled from the spec (§4.2): the GeometryPlanner crop rule for a
backend component whose source is not part of this repository snapshot.
With target ratio `r_t = tw/th`: a source that is too wide
(`r_s > r_t`) has its width cropped to `round(height * r_t)` centered,
a source that is too tall (`r_s < r_t`) has its height cropped to
`round(width / r_t)`, and ratios equal within ε = 1e-2 mean no crop;
emitted dimensions are rounded to the nearest even integer and no
padding is introduced by the crop method. -/
def cropPlan (sw sh tw th : ℕ) : ℤ × ℤ :=
  let rs : ℚ := (sw : ℚ) / (sh : ℚ)
  let rt : ℚ := (tw : ℚ) / (th : ℚ)
  if |rs - rt| ≤ 1/100 then (evenRound (sw : ℚ), evenRound (sh : ℚ))
  else if rt < rs then (evenRound ((sh : ℚ) * rt), evenRound (sh : ℚ))
  else (evenRound (sw : ℚ), evenRound ((sw : ℚ) / rt))

/-- Claim C6: cropping a 1920×1080 source to target ratio 9:16 plans a
608×1080 output — width `round(1080 · 9/16) = 608`, height unchanged —
with both dimensions even and the output width within 1 pixel of the
exact 9:16 width for a 1080-pixel-high frame. -/
theorem C6_crop_1920x1080_to_9_16 :
    cropPlan 1920 1080 9 16 = (608, 1080) ∧
    Even (608 : ℤ) ∧ Even (1080 : ℤ) ∧
    |(608 : ℚ) - 1080 * (9 / 16)| ≤ 1 := by
  have e1 : ((1920 : ℕ) : ℚ) = 1920 := by norm_num
  have e2 : ((1080 : ℕ) : ℚ) = 1080 := by norm_num
  have e3 : ((9 : ℕ) : ℚ) = 9 := by norm_num
  have e4 : ((16 : ℕ) : ℚ) = 16 := by norm_num
  have hd : (1920 : ℚ) / 1080 - (9 : ℚ) / 16 = 175/144 := by norm_num
  have habs : ¬ (|(1920 : ℚ) / 1080 - (9 : ℚ) / 16| ≤ 1/100) := by
    rw [hd, abs_of_nonneg (by norm_num : (0 : ℚ) ≤ 175/144)]
    norm_num
  have hwide : (9 : ℚ) / 16 < (1920 : ℚ) / 1080 := by norm_num
  have hfloor1 : (⌊(1080 : ℚ) * ((9 : ℚ) / 16) / 2 + 1/2⌋ : ℤ) = 304 := by
    rw [Int.floor_eq_iff]
    norm_num
  have hfloor2 : (⌊(1080 : ℚ) / 2 + 1/2⌋ : ℤ) = 540 := by
    rw [Int.floor_eq_iff]
    norm_num
  refine ⟨?_, ⟨304, by norm_num⟩, ⟨540, by norm_num⟩, ?_⟩
  · simp only [cropPlan, e1, e2, e3, e4]
    rw [if_neg habs, if_pos hwide]
    simp only [evenRound, round_eq, hfloor1, hfloor2]
    norm_num
  · rw [abs_of_nonneg (by norm_num : (0 : ℚ) ≤ (608 : ℚ) - 1080 * (9/16))]
    norm_num

end GeometryPlanner

namespace Api

/-- One pass of the response interceptor's error branch (api.ts:47-67),
as a function of the request config's `__retryCount` field (`none` for a
config that has never been retried, since `undefined >= 3` is false in
JavaScript): `none` means the request is rejected and the error surfaces
to the caller, `some c` means the request is re-issued carrying the new
count `c`. -/
def interceptorRetry (retryCount : Option ℕ) : Option ℕ :=
  match retryCount with
  | some c => if 3 ≤ c then none else some (c + 1)
  | none => some 1

/-- The attempts made for a request all of whose attempts fail, starting
from a config with the given retry count: each failed attempt either
surfaces the error (count ≥ 3) or re-issues the request with the
incremented count.  The fuel argument only bounds the unfolding. -/
def failedAttempts : ℕ → Option ℕ → ℕ
  | 0, _ => 0
  | fuel + 1, rc =>
    match interceptorRetry rc with
    | none => 1
    | some c => 1 + failedAttempts fuel (some c)

/-- Claim C7: the API client's response interceptor re-issues a failed
request at most 3 times — it rejects once `__retryCount` reaches 3 — so
a request all of whose attempts fail makes exactly 4 attempts (the
original plus 3 retries) and then surfaces the error. -/
theorem C7_retries_bounded :
    (∀ fuel : ℕ, failedAttempts (fuel + 4) none = 4) ∧
    (∀ c : ℕ, 3 ≤ c → interceptorRetry (some c) = none) := by
  constructor
  · intro fuel
    show failedAttempts (fuel + 3 + 1) none = 4
    simp [failedAttempts, interceptorRetry]
  · intro c hc
    simp [interceptorRetry, hc]

/-- Witness: the C7 theorem at fuel 6 and retry count 3. -/
theorem C7_retries_bounded_witness :
    failedAttempts (6 + 4) none = 4 ∧ interceptorRetry (some 3) = none :=
  ⟨C7_retries_bounded.1 6, C7_retries_bounded.2 3 (by norm_num)⟩

/-- The upload timeout computed by `uploadVideo` (api.ts:78-82) for a
file of the given size in bytes: the size in megabytes is
`size / (1024 * 1024)`, the additional timeout is
`Math.ceil(fileSizeMB / 100) * 60000`, and the timeout is
`Math.max(300000, 300000 + additionalTimeout)` milliseconds. -/
def uploadTimeout (size : ℕ) : ℚ :=
  let fileSizeMB : ℚ := (size : ℚ) / (1024 * 1024)
  let baseTimeout : ℚ := 300000
  let additionalTimeout : ℚ := (⌈fileSizeMB / 100⌉ : ℤ) * 60000
  max baseTimeout (baseTimeout + additionalTimeout)

/-- Claim C8: for every file size the upload timeout equals
`max(300000, 300000 + ceil(sizeMB/100) · 60000)` milliseconds, is a
monotonically non-decreasing function of the size, and is always at
least 5 minutes (300000 ms). -/
theorem C8_upload_timeout :
    (∀ size : ℕ, uploadTimeout size =
      max (300000 : ℚ)
        ((300000 : ℚ) +
          ((⌈((size : ℚ) / (1024 * 1024)) / 100⌉ : ℤ) : ℚ) * 60000)) ∧
    (∀ a b : ℕ, a ≤ b → uploadTimeout a ≤ uploadTimeout b) ∧
    (∀ size : ℕ, 300000 ≤ uploadTimeout size) := by
  refine ⟨fun size => rfl, ?_, fun size => le_max_left _ _⟩
  intro a b hab
  simp only [uploadTimeout]
  refine max_le_max le_rfl (add_le_add_left ?_ _)
  have hceil : (⌈((a : ℚ) / (1024 * 1024)) / 100⌉ : ℤ) ≤
      ⌈((b : ℚ) / (1024 * 1024)) / 100⌉ := by
    apply Int.ceil_le_ceil
    have hq : ((a : ℚ)) ≤ ((b : ℚ)) := by exact_mod_cast hab
    gcongr
  exact mul_le_mul_of_nonneg_right (by exact_mod_cast hceil) (by norm_num)

/-- Witness: the C8 theorem's monotonicity at sizes 0 and 500 MiB, and
its lower bound at size 0. -/
theorem C8_upload_timeout_witness :
    uploadTimeout 0 ≤ uploadTimeout (500 * 1024 * 1024) ∧
    300000 ≤ uploadTimeout 0 :=
  ⟨C8_upload_timeout.2.1 0 (500 * 1024 * 1024) (by norm_num),
   C8_upload_timeout.2.2 0⟩

/-- The JavaScript error value seen by `handleApiError` (api.ts:148-156):
the optional chain `error.response?.data?.error` collapses to an
optional string (`none` when any link is missing), `error.message`
likewise. -/
structure JsError where
  responseDataError : Option String
  message : Option String

/-- JavaScript truthiness of an optional string: a missing value and the
empty string are falsy, every other string is truthy. -/
def jsTruthy : Option String → Bool
  | some s => decide (s ≠ "")
  | none => false

/-- Function `handleApiError` (api.ts:148-156): the server-provided
`error.response.data.error` when truthy, else `error.message` when
truthy, else a fixed fallback message. -/
def handleApiError (e : JsError) : String :=
  if jsTruthy e.responseDataError then e.responseDataError.getD ("")
  else if jsTruthy e.message then e.message.getD ("")
  else "An unexpected error occurred"

theorem jsTruthy_getD {o : Option String} (h : jsTruthy o = true) :
    o.getD ("") ≠ "" := by
  cases o with
  | none => exact absurd h (by simp [jsTruthy])
  | some s => exact of_decide_eq_true h

/-- Claim C9: `handleApiError` is total and always returns a non-empty
string — the server-provided error when present (truthy), otherwise the
error's own message when present (truthy), otherwise exactly the fixed
fallback text. -/
theorem C9_handleApiError_structured (e : JsError) :
    handleApiError e ≠ "" ∧
    (∀ s, e.responseDataError = some s → s ≠ "" → handleApiError e = s) ∧
    (∀ m, jsTruthy e.responseDataError = false → e.message = some m →
      m ≠ "" → handleApiError e = m) ∧
    (jsTruthy e.responseDataError = false → jsTruthy e.message = false →
      handleApiError e = "An unexpected error occurred") := by
  refine ⟨?_, ?_, ?_, ?_⟩
  · unfold handleApiError
    split_ifs with h1 h2
    · exact jsTruthy_getD h1
    · exact jsTruthy_getD h2
    · decide
  · intro s hs hne
    simp only [handleApiError, hs]
    rw [if_pos (show jsTruthy (some s) = true from decide_eq_true hne)]
    rfl
  · intro m h1 hm hne
    simp only [handleApiError, h1, hm]
    rw [if_neg (by simp), if_pos (show jsTruthy (some m) = true from
      decide_eq_true hne)]
    rfl
  · intro h1 h2
    simp [handleApiError, h1, h2]

/-- Witness: the C9 theorem at concrete error values exercising all
three branches. -/
theorem C9_handleApiError_witness :
    handleApiError ⟨some ("server exploded"), none⟩ ≠ "" ∧
    handleApiError ⟨some ("server exploded"), none⟩ = "server exploded" ∧
    handleApiError ⟨none, some ("Network Error")⟩ = "Network Error" ∧
    handleApiError ⟨none, none⟩ = "An unexpected error occurred" :=
  ⟨(C9_handleApiError_structured ⟨some ("server exploded"), none⟩).1,
   (C9_handleApiError_structured ⟨some ("server exploded"), none⟩).2.1
     "server exploded" rfl (by decide),
   (C9_handleApiError_structured ⟨none, some ("Network Error")⟩).2.2.1
     "Network Error" rfl rfl (by decide),
   (C9_handleApiError_structured ⟨none, none⟩).2.2.2 rfl rfl⟩

end Api

namespace Utils

/-- The fields of a JavaScript `File` that `validateVideoFile` reads:
its MIME `type` and its `size` in bytes. -/
structure JsFile where
  type : String
  size : ℕ
deriving DecidableEq

/-- The allow-list `allowedTypes` (types.ts:82). -/
def allowedTypes : List String :=
  ["video/mp4", "video/avi", "video/mov", "video/quicktime",
   "video/x-msvideo"]

/-- The limit `maxSize` (types.ts:83): 2 GiB. -/
def maxSize : ℕ := 2 * 1024 * 1024 * 1024

/-- The MIME-type rejection message (types.ts:86). -/
def typeErrorMessage : String :=
  "Please select a valid video file (MP4, AVI, MOV)"

/-- The size rejection message (types.ts:90). -/
def sizeErrorMessage : String := "File size must be less than 2GB"

/-- Function `validateVideoFile` (types.ts:81-94): reject a MIME type outside the
allow-list, then a size strictly above 2 GiB, else accept (`null`). -/
def validateVideoFile (f : JsFile) : Option String :=
  if f.type ∉ allowedTypes then some typeErrorMessage
  else if maxSize < f.size then some sizeErrorMessage
  else none

/-- Claim C10: `validateVideoFile` returns `null` exactly when the MIME
type is allowed and the size is at most 2 GiB; a disallowed type gets
the type error message (regardless of size), and an allowed type above
the size limit gets the size error message. -/
theorem C10_validateVideoFile (f : JsFile) :
    (validateVideoFile f = none ↔
      f.type ∈ allowedTypes ∧ f.size ≤ maxSize) ∧
    (f.type ∉ allowedTypes →
      validateVideoFile f = some typeErrorMessage) ∧
    (f.type ∈ allowedTypes → maxSize < f.size →
      validateVideoFile f = some sizeErrorMessage) := by
  by_cases h1 : f.type ∈ allowedTypes
  · by_cases h2 : maxSize < f.size
    · refine ⟨?_, fun h => absurd h1 h, fun _ _ => by
        simp [validateVideoFile, h1, h2]⟩
      simp [validateVideoFile, h1, h2]
    · refine ⟨?_, fun h => absurd h1 h, fun _ h => absurd h h2⟩
      simp [validateVideoFile, h1, h2]
      omega
  · refine ⟨?_, fun _ => by simp [validateVideoFile, h1],
      fun h => absurd h h1⟩
    simp [validateVideoFile, h1]

/-- Witness: the C10 theorem at an accepted MP4, a rejected MKV (a type
the upload UI advertises but the validator refuses), and an oversized
MP4. -/
theorem C10_validateVideoFile_witness :
    validateVideoFile ⟨"video/mp4", 1000⟩ = none ∧
    validateVideoFile ⟨"video/x-matroska", 1000⟩ = some typeErrorMessage ∧
    validateVideoFile ⟨"video/mp4", 3 * 1024 * 1024 * 1024⟩ =
      some sizeErrorMessage :=
  ⟨(C10_validateVideoFile ⟨"video/mp4", 1000⟩).1.mpr
     ⟨by decide, by norm_num [maxSize]⟩,
   (C10_validateVideoFile ⟨"video/x-matroska", 1000⟩).2.1 (by decide),
   (C10_validateVideoFile ⟨"video/mp4", 3 * 1024 * 1024 * 1024⟩).2.2
     (by decide) (by norm_num [maxSize])⟩

end Utils
